import Mathlib

/-!
Verification of the resilient cache / OTP core of samaasi/uptime-application.

Shallow embedding conventions:
* Go `time.Time` values become `Int` timestamps (nanoseconds since epoch);
  Go's `a.After(b)` is the strict comparison `b < a`, and
  `time.Since(t) = now - t`.
* Go `int` counters become `Int`.
* Go byte strings become Lean `String` (the payloads in the claims are ASCII,
  where Go's byte indexing and Lean's character indexing agree).
* Fallible Go functions return `Except`/`Option`; a Go runtime panic is an
  explicit constructor of the result type.
* Interfaces (the OTP `Repository`, the `CacheClient`) are modelled by passing
  the outcome of the interface call as an explicit argument, or by an explicit
  store state for the healthy in-memory behaviour.
-/

namespace Uptime

/-! ## OTP domain model (`pkg/otp`) -/

/-- The `otp.OTP` record. -/
structure OTP where
  code : String
  identifier : String
  otpType : String
  expiresAt : Int
  used : Bool
  createdAt : Int
  attempts : Int
deriving Repr, DecidableEq

/-- The `otp.OTPConfig` structure (durations in the same abstract time unit as
timestamps). -/
structure OTPConfig where
  length : Int
  expirationPasswordReset : Int
  expirationEmailVerify : Int
  expirationPhoneVerify : Int
  maxAttempts : Int
deriving Repr, DecidableEq

/-- `otp.DefaultOTPConfig()`, durations in minutes. -/
def DefaultOTPConfig : OTPConfig :=
  { length := 6
    expirationPasswordReset := 15
    expirationEmailVerify := 30
    expirationPhoneVerify := 15
    maxAttempts := 3 }

/-- The domain errors `OTPService.Validate` can return
(`common.ErrOTPExpired`, `common.ErrOTPAlreadyUsed`, `common.ErrTooManyAttempts`,
`common.ErrInvalidOTP`); `nil` is modelled as `none`. -/
inductive OTPError
  | otpExpired
  | otpAlreadyUsed
  | tooManyAttempts
  | invalidOTP
deriving Repr, DecidableEq

/-- `OTPService.Validate(otp, code)` from `pkg/otp`.  The Go function mutates
the record in place and returns an error; we return the error together with the
updated record.  Note the expiry test is Go's `now.After(otp.ExpiresAt)`, i.e.
the strict comparison `otp.expiresAt < now`. -/
def OTPService.Validate (cfg : OTPConfig) (now : Int) (o : OTP) (code : String) :
    Option OTPError × OTP :=
  if o.expiresAt < now then (some .otpExpired, o)
  else if o.used then (some .otpAlreadyUsed, o)
  else if cfg.maxAttempts ≤ o.attempts then (some .tooManyAttempts, o)
  else if o.code ≠ code then
    let o1 : OTP := { o with attempts := o.attempts + 1 }
    if cfg.maxAttempts ≤ o1.attempts then (some .tooManyAttempts, o1)
    else (some .invalidOTP, o1)
  else (none, { o with attempts := o.attempts + 1, used := true })

/-! ## OTP repository and orchestration
(`internal/api/repositories` and `internal/api/services/otp.service.go`)

The repository persists one record per `(purpose, identifier)` key through the
cache; all claims concern a single key, so the store for that key is an
`Option OTP`.  `GetOTP` goes through `cacheService.Get`, which can also fail
with store-unavailability, transport or decode errors; those possible failures
of the load step are an explicit `fault` argument. -/

/-- The failure modes of the repository load step (`otpRepository.GetOTP`):
the key is absent, or the underlying cache/store call failed. -/
inductive LoadError
  | keyNotFound
  | storeUnavailable (msg : String)
  | transportFailure (msg : String)
  | decodeFailure (msg : String)
deriving Repr, DecidableEq

/-- `otpRepository.GetOTP`: returns the stored record, the not-found error, or
whatever store/transport/decode error the cache layer produced. -/
def repoGetOTP (store : Option OTP) (fault : Option LoadError) : Except LoadError OTP :=
  match fault with
  | some e => .error e
  | none =>
    match store with
    | some r => .ok r
    | none => .error .keyNotFound

/-- `otpRepository.UpdateOTP`: recomputes the remaining TTL as
`expires_at - now` and rejects the update (`"otp expired"`) when it is `≤ 0`;
otherwise the record is re-stored.  Returns the resulting store contents, which
are unchanged when the update is rejected (the orchestrator ignores the
error). -/
def repoUpdateOTP (now : Int) (store : Option OTP) (r : OTP) : Option OTP :=
  if r.expiresAt - now ≤ 0 then store else some r

/-- The caller-visible errors of `UserOTPManagerService.VerifyOTP`.  (The Go
`default` branch wrapping an unexpected validation error is unreachable:
`Validate` returns exactly the four `OTPError` values or `nil`.) -/
inductive VerifyError
  | otpNotFound
  | invalidOTP
  | tooManyAttempts
  | otpExpired
  | otpAlreadyUsed
deriving Repr, DecidableEq

/-- `UserOTPManagerService.VerifyOTP` for one `(purpose, identifier)` key:
load via the repository (any load error is answered with
`common.ErrOTPNotFound` and leaves the store untouched), then `Validate`, then
persist or delete according to the outcome.  The result is
`((success, error), store afterwards)`. -/
def VerifyOTP (cfg : OTPConfig) (now : Int) (store : Option OTP)
    (fault : Option LoadError) (code : String) :
    (Bool × Option VerifyError) × Option OTP :=
  match repoGetOTP store fault with
  | .error _ => ((false, some .otpNotFound), store)
  | .ok storedOTP =>
    match OTPService.Validate cfg now storedOTP code with
    | (some .invalidOTP, r1) => ((false, some .invalidOTP), repoUpdateOTP now store r1)
    | (some .tooManyAttempts, _) => ((false, some .tooManyAttempts), none)
    | (some .otpExpired, _) => ((false, some .otpExpired), none)
    | (some .otpAlreadyUsed, _) => ((false, some .otpAlreadyUsed), store)
    | (none, _) => ((true, none), none)

/-- A sequence of healthy-store `VerifyOTP` calls against the same key,
returning the final store contents. -/
def VerifyOTPRun (cfg : OTPConfig) (store : Option OTP) :
    List (Int × String) → Option OTP
  | [] => store
  | (now, code) :: rest => VerifyOTPRun cfg (VerifyOTP cfg now store none code).2 rest

/-! ## Redis client circuit breaker (`internal/database` redis client)

The breaker fields of `RedisClient` (`circuitState`, `failureCount`,
`lastFailureTime`) and the three helpers `isCircuitOpen`,
`handleCircuitBreaker`, `resetCircuitBreaker`, with `EnableCircuitBreaker`
assumed true (the default).  A store operation (`Set`/`Get`/`Delete`/…) is
modelled by `storeCall`: the breaker check, then — only if allowed through —
the network call, whose outcome is the `netOk` argument. -/

/-- `CircuitClosed` / `CircuitOpen` / `CircuitHalfOpen`. -/
inductive CircuitState
  | circClosed
  | circOpen
  | circHalfOpen
deriving Repr, DecidableEq

/-- The breaker-relevant fields of `RedisClientOptions`. -/
structure BreakerOptions where
  circuitBreakerThreshold : Int
  circuitBreakerTimeout : Int
deriving Repr, DecidableEq

/-- The breaker-relevant mutable state of `RedisClient`. -/
structure Breaker where
  circuitState : CircuitState
  failureCount : Int
  lastFailureTime : Int
deriving Repr, DecidableEq

/-- The observable result of `RedisClient.isCircuitOpen`: the call is allowed
through, short-circuited because the breaker is open, or the process dies
before the function returns to its caller. -/
inductive CheckResult
  | allowed
  | openShort
  | fatalRUnlock
deriving Repr, DecidableEq

/-- `RedisClient.isCircuitOpen`.  The function takes `c.mu.RLock()` with a
deferred `RUnlock`.  When the state is Open and the cool-down
(`time.Since(lastFailureTime) > CircuitBreakerTimeout`) has elapsed, the
source releases the read lock explicitly, upgrades to `c.mu.Lock()` with a
deferred `Unlock`, demotes the state to Half-Open and returns false — but the
deferred calls then run LIFO: the `Unlock` releases the write lock and the
original deferred `RUnlock` fires with no read lock held, so Go's
`sync.RWMutex` kills the process with the unrecoverable fatal error
"sync: RUnlock of unlocked RWMutex".  That path is therefore `fatalRUnlock`
(the demoted Half-Open state is recorded for fidelity although the process
never observes it).  Every other path uses the lock in a balanced way: Open
within the cool-down short-circuits (`openShort`), any other state lets the
call pass (`allowed`). -/
def isCircuitOpen (opts : BreakerOptions) (c : Breaker) (now : Int) :
    CheckResult × Breaker :=
  match c.circuitState with
  | .circOpen =>
    if opts.circuitBreakerTimeout < now - c.lastFailureTime then
      (.fatalRUnlock, { c with circuitState := .circHalfOpen })
    else (.openShort, c)
  | _ => (.allowed, c)

/-- `RedisClient.handleCircuitBreaker` for a non-nil, non-`redis.Nil` error:
count the failure, stamp its time, then Half-Open falls back to Open (counter
cleared) and Closed trips to Open at the threshold. -/
def handleCircuitBreaker (opts : BreakerOptions) (c : Breaker) (now : Int) : Breaker :=
  let c1 : Breaker := { c with failureCount := c.failureCount + 1, lastFailureTime := now }
  if c1.circuitState = .circHalfOpen ∧ 0 < c1.failureCount then
    { c1 with circuitState := .circOpen, failureCount := 0 }
  else if c1.circuitState = .circClosed ∧ opts.circuitBreakerThreshold ≤ c1.failureCount then
    { c1 with circuitState := .circOpen }
  else c1

/-- `RedisClient.resetCircuitBreaker`: back to Closed with the counter at
zero. -/
def resetCircuitBreaker (c : Breaker) : Breaker :=
  { c with circuitState := .circClosed, failureCount := 0 }

/-- What happened to one store operation: short-circuited by the breaker (no
network attempt), a network call that succeeded / failed, or the process died
inside the breaker check before any network attempt or error return. -/
inductive CallOutcome
  | shortCircuited
  | netSuccess
  | netFailure
  | fatalRUnlock
deriving Repr, DecidableEq

/-- One store operation of the redis client at time `now` whose network call
(if attempted) has outcome `netOk`.  Mirrors the shared shape of
`Set`/`Get`/`Delete`/`Update`/`Increment`/`Decrement`/`HealthCheck`: breaker
check first; if the check dies in the unbalanced-RUnlock path the whole
process is gone (nothing further executes); a short-circuit produces the
"circuit breaker open" error which is itself counted by
`handleCircuitBreaker`; a real failure is counted; a success resets the
breaker. -/
def storeCall (opts : BreakerOptions) (c : Breaker) (now : Int) (netOk : Bool) :
    CallOutcome × Breaker :=
  match isCircuitOpen opts c now with
  | (.fatalRUnlock, c1) => (.fatalRUnlock, c1)
  | (.openShort, c1) => (.shortCircuited, handleCircuitBreaker opts c1 now)
  | (.allowed, c1) =>
    if netOk then (.netSuccess, resetCircuitBreaker c1)
    else (.netFailure, handleCircuitBreaker opts c1 now)

/-- A sequence of failing store calls at the given times. -/
def failCalls (opts : BreakerOptions) (c : Breaker) : List Int → Breaker
  | [] => c
  | t :: ts => failCalls opts (storeCall opts c t false).2 ts

/-! ## Cache service (`pkg/cache/cache.go`)

Payloads and error messages are `String`s.  The `CacheClient` behind the
service is an interface; the outcome of its `Get` is the explicit
`clientResult` argument, and the single-flight fetch function's outcome is the
explicit `fetchResult` argument.  Successful JSON round-trips are modelled as
the identity on payloads (no claim involves a decode failure of a healthy
payload). -/

/-- The negative-caching sentinel `cachedErrorPrefix = "ERR:"`. -/
def cachedErrorPrefix : String := "ERR:"

/-- `Service.Get`: client errors pass through unchanged; a payload beginning
with the sentinel prefix becomes the error `"cached error: " ++ rest`; any
other payload is returned (unmarshalled) as the value. -/
def serviceGet (clientResult : Except String String) : Except String String :=
  match clientResult with
  | .error e => .error e
  | .ok data =>
    if cachedErrorPrefix.length ≤ data.length ∧
        data.take cachedErrorPrefix.length = cachedErrorPrefix then
      .error ("cached error: " ++ data.drop cachedErrorPrefix.length)
    else .ok data

/-- The observable outcome of `Service.GetOrSet`: a value delivered into
`dest`, an error return, or a runtime panic. -/
inductive GoResult
  | value (v : String)
  | errMsg (msg : String)
  | panicked
deriving Repr, DecidableEq

/-- `Service.GetOrSet`, given the outcome of the underlying client `Get` and
the outcome of the fetch function.  The second component records whether the
fetch function was invoked.  After a `Get` error the code evaluates
`err.Error()[len("cached error:"):]` — a byte slice at index 13 that panics
when the message is shorter — and compares
`err.Error() == fmt.Sprintf("cached error: %s", err.Error()[13:])`; only if
that comparison fails does it fall through to the single-flight fetch. -/
def serviceGetOrSet (clientResult : Except String String)
    (fetchResult : Except String String) : GoResult × Bool :=
  match serviceGet clientResult with
  | .ok v => (.value v, false)
  | .error msg =>
    if msg.length < 13 then (.panicked, false)
    else if msg = "cached error: " ++ msg.drop 13 then (.errMsg msg, false)
    else
      match fetchResult with
      | .error fe => (.errMsg fe, true)
      | .ok v => (.value v, true)

/-! ## TTL jitter (`Service.addJitter`)

Go's float64 arithmetic is modelled exactly over `ℚ`; `rand.Float64()` is the
argument `r` with `0 ≤ r < 1`, and the Go conversion
`time.Duration(float64(duration) * jitter)` truncates toward zero. -/

/-- Go float-to-integer conversion: truncation toward zero. -/
def goTrunc (q : ℚ) : Int := if 0 ≤ q then ⌊q⌋ else ⌈q⌉

/-- `Service.addJitter(duration, percentage)` with the drawn random value `r`:
non-positive durations pass through; otherwise the duration is perturbed by
`jitter = 2*percentage*r - percentage`. -/
def addJitter (duration : Int) (percentage r : ℚ) : Int :=
  if duration ≤ 0 then duration
  else duration + goTrunc ((duration : ℚ) * (2 * percentage * r - percentage))

/-! ## Auxiliary instances and concrete records for witnesses -/

instance exceptDecEq {ε α : Type} [DecidableEq ε] [DecidableEq α] :
    DecidableEq (Except ε α) := fun a b =>
  match a, b with
  | .ok x, .ok y =>
    if h : x = y then .isTrue (by rw [h])
    else .isFalse (by intro hh; cases hh; exact h rfl)
  | .ok _, .error _ => .isFalse (by intro hh; cases hh)
  | .error _, .ok _ => .isFalse (by intro hh; cases hh)
  | .error x, .error y =>
    if h : x = y then .isTrue (by rw [h])
    else .isFalse (by intro hh; cases hh; exact h rfl)

/-- A concrete fresh OTP record used to instantiate theorems. -/
def recEx : OTP :=
  { code := "123456"
    identifier := "alice@example.com"
    otpType := "email_verification"
    expiresAt := 10
    used := false
    createdAt := 0
    attempts := 0 }

/-- The condition under which a `Validate` call reaches the code-comparison
step: the record is live, unused and strictly below the attempt cap (the
complement of the three short-circuits). -/
def reachesComparison (cfg : OTPConfig) (now : Int) (o : OTP) : Bool :=
  !(decide (o.expiresAt < now)) && !o.used && decide (o.attempts < cfg.maxAttempts)

/-! ## Branch lemmas for `OTPService.Validate` -/

/-- Expired branch: strictly past `expires_at`, the record is untouched. -/
lemma validate_expired (cfg : OTPConfig) (now : Int) (o : OTP) (code : String)
    (h : o.expiresAt < now) :
    OTPService.Validate cfg now o code = (some .otpExpired, o) := by
  unfold OTPService.Validate
  rw [if_pos h]

/-- Used branch. -/
lemma validate_used (cfg : OTPConfig) (now : Int) (o : OTP) (code : String)
    (hlive : ¬ o.expiresAt < now) (hu : o.used = true) :
    OTPService.Validate cfg now o code = (some .otpAlreadyUsed, o) := by
  unfold OTPService.Validate
  rw [if_neg hlive, hu]
  simp

/-- Prior-exhaustion branch: no increment. -/
lemma validate_exhausted (cfg : OTPConfig) (now : Int) (o : OTP) (code : String)
    (hlive : ¬ o.expiresAt < now) (hu : o.used = false)
    (hge : cfg.maxAttempts ≤ o.attempts) :
    OTPService.Validate cfg now o code = (some .tooManyAttempts, o) := by
  unfold OTPService.Validate
  rw [if_neg hlive, hu]
  simp [hge]

/-- Wrong-code branch: increment by one, then exhaustion check. -/
lemma validate_wrongCode (cfg : OTPConfig) (now : Int) (o : OTP) (code : String)
    (hlive : ¬ o.expiresAt < now) (hu : o.used = false)
    (hlt : o.attempts < cfg.maxAttempts) (hne : o.code ≠ code) :
    OTPService.Validate cfg now o code =
      ((if cfg.maxAttempts ≤ o.attempts + 1 then some .tooManyAttempts
        else some .invalidOTP),
       { o with attempts := o.attempts + 1 }) := by
  unfold OTPService.Validate
  rw [if_neg hlive, hu]
  simp [hne, not_le.mpr hlt]
  split_ifs <;> rfl

/-- Matching-code branch: increment by one, mark used, succeed. -/
lemma validate_rightCode (cfg : OTPConfig) (now : Int) (o : OTP) (code : String)
    (hlive : ¬ o.expiresAt < now) (hu : o.used = false)
    (hlt : o.attempts < cfg.maxAttempts) (heq : o.code = code) :
    OTPService.Validate cfg now o code =
      (none, { o with attempts := o.attempts + 1, used := true }) := by
  unfold OTPService.Validate
  rw [if_neg hlive, hu]
  simp [heq, not_le.mpr hlt]

/-! ## Claim C2 -/

/-- C2: for every record that the expiry check lets through, `Validate`
follows exactly this decision order: used → AlreadyUsed with the record
untouched; else prior exhaustion (`attempts ≥ maxAttempts`) → TooManyAttempts
with the record untouched; else a wrong code increments attempts by exactly one
and yields TooManyAttempts when the incremented count reaches `maxAttempts`,
InvalidCode otherwise; else the matching code increments attempts by exactly
one, sets `used := true`, and succeeds. -/
theorem validate_decision_order (cfg : OTPConfig) (now : Int) (o : OTP) (code : String)
    (hlive : ¬ o.expiresAt < now) :
    (o.used = true → OTPService.Validate cfg now o code = (some .otpAlreadyUsed, o)) ∧
    (o.used = false → cfg.maxAttempts ≤ o.attempts →
      OTPService.Validate cfg now o code = (some .tooManyAttempts, o)) ∧
    (o.used = false → o.attempts < cfg.maxAttempts → o.code ≠ code →
      OTPService.Validate cfg now o code =
        ((if cfg.maxAttempts ≤ o.attempts + 1 then some .tooManyAttempts
          else some .invalidOTP),
         { o with attempts := o.attempts + 1 })) ∧
    (o.used = false → o.attempts < cfg.maxAttempts → o.code = code →
      OTPService.Validate cfg now o code =
        (none, { o with attempts := o.attempts + 1, used := true })) :=
  ⟨fun hu => validate_used cfg now o code hlive hu,
   fun hu hge => validate_exhausted cfg now o code hlive hu hge,
   fun hu hlt hne => validate_wrongCode cfg now o code hlive hu hlt hne,
   fun hu hlt heq => validate_rightCode cfg now o code hlive hu hlt heq⟩

/-- C2 witness: concrete fresh record, wrong code, at a live instant. -/
theorem validate_decision_order_witness :
    ¬ recEx.expiresAt < 5 ∧
    OTPService.Validate DefaultOTPConfig 5 recEx "000000" =
      (some .invalidOTP, { recEx with attempts := 1 }) := by
  refine ⟨by decide, ?_⟩
  have h := (validate_decision_order DefaultOTPConfig 5 recEx "000000"
    (by decide)).2.2.1 rfl (by decide) (by decide)
  rw [h, if_neg (by decide)]
  decide

/-! ## Claim C3 -/

/-- C3 counterexample: at the exact expiry instant (`now = expires_at = 10`)
with the correct code and attempts remaining, `Validate` succeeds (and
increments attempts) instead of reporting Expired: the code's expiry test is
the strict `now.After(expires_at)`. -/
theorem validate_at_expiry_instant_not_expired :
    (10 : Int) ≥ recEx.expiresAt ∧
    OTPService.Validate DefaultOTPConfig 10 recEx "123456" =
      (none, { recEx with attempts := 1, used := true }) := by decide

/-- C3 (amended): whenever the validation time is STRICTLY greater than the
record's `expires_at`, `Validate` returns the Expired outcome with the record
untouched (no attempt increment) and before any code comparison — the result
is Expired for every presented code, even the correct one.  At the exact
expiry instant the record is still live. -/
theorem validate_expired_strict (cfg : OTPConfig) (now : Int) (o : OTP) (code : String)
    (h : o.expiresAt < now) :
    OTPService.Validate cfg now o code = (some .otpExpired, o) :=
  validate_expired cfg now o code h

/-- C3 witness: one instant past expiry, the correct code is rejected as
expired and the record is unchanged. -/
theorem validate_expired_strict_witness :
    recEx.expiresAt < 11 ∧
    OTPService.Validate DefaultOTPConfig 11 recEx "123456" = (some .otpExpired, recEx) :=
  ⟨by decide, validate_expired_strict DefaultOTPConfig 11 recEx "123456" (by decide)⟩

/-! ## Claim C1 -/

/-- C1 counterexample: the record for the key IS present in the store, but the
load step fails with a store-unavailability error ("circuit breaker open");
`VerifyOTP` nevertheless reports the not-found outcome — the store error is
not surfaced as a distinct internal/store error. -/
theorem verifyOTP_store_error_as_notFound :
    VerifyOTP DefaultOTPConfig 5 (some recEx)
        (some (.storeUnavailable "circuit breaker open")) "123456" =
      ((false, some .otpNotFound), some recEx) := by decide

/-- C1 (amended): `VerifyOTP` reports the not-found outcome for EVERY failure
of the load step — absence of the record, store-unavailability, transport and
decode failures are all collapsed into `ErrOTPNotFound`; no load failure is
surfaced as a distinct internal/store error.  The store is left untouched. -/
theorem verifyOTP_any_load_failure_notFound (cfg : OTPConfig) (now : Int)
    (store : Option OTP) (fault : Option LoadError) (code : String) (e : LoadError)
    (h : repoGetOTP store fault = .error e) :
    VerifyOTP cfg now store fault code = ((false, some .otpNotFound), store) := by
  unfold VerifyOTP
  rw [h]

/-- C1 witness: a transport failure during load is answered with not-found. -/
theorem verifyOTP_any_load_failure_notFound_witness :
    repoGetOTP (some recEx) (some (.transportFailure "dial tcp: i/o timeout")) =
      .error (.transportFailure "dial tcp: i/o timeout") ∧
    VerifyOTP DefaultOTPConfig 7 (some recEx)
        (some (.transportFailure "dial tcp: i/o timeout")) "123456" =
      ((false, some .otpNotFound), some recEx) :=
  ⟨by decide,
   verifyOTP_any_load_failure_notFound DefaultOTPConfig 7 (some recEx)
     (some (.transportFailure "dial tcp: i/o timeout")) "123456"
     (.transportFailure "dial tcp: i/o timeout") (by decide)⟩

/-! ## Claim C5 -/

/-- C5: with `maxAttempts = 3`, a fresh record and three wrong codes presented
while the record is live: the first two calls report InvalidCode and persist
the incremented attempt counts (1, then 2); the third call reports
TooManyAttempts and afterwards the record is physically absent from the store
(`none`), not merely flagged. -/
theorem verifyOTP_exhaustion_purge (cfg : OTPConfig) (r : OTP)
    (n1 n2 n3 : Int) (w1 w2 w3 : String)
    (hmax : cfg.maxAttempts = 3) (ha : r.attempts = 0) (hu : r.used = false)
    (h1 : n1 < r.expiresAt) (h2 : n2 < r.expiresAt) (h3 : n3 < r.expiresAt)
    (hw1 : r.code ≠ w1) (hw2 : r.code ≠ w2) (hw3 : r.code ≠ w3) :
    VerifyOTP cfg n1 (some r) none w1 =
      ((false, some .invalidOTP), some { r with attempts := 1 }) ∧
    VerifyOTP cfg n2 (some { r with attempts := 1 }) none w2 =
      ((false, some .invalidOTP), some { r with attempts := 2 }) ∧
    VerifyOTP cfg n3 (some { r with attempts := 2 }) none w3 =
      ((false, some .tooManyAttempts), none) := by
  refine ⟨?_, ?_, ?_⟩
  · have hv := validate_wrongCode cfg n1 r w1 (by omega) hu (by omega) hw1
    rw [hmax, ha, if_neg (by omega)] at hv
    simp [VerifyOTP, repoGetOTP, hv, repoUpdateOTP,
      show ¬ r.expiresAt - n1 ≤ 0 from by omega]
  · have hv := validate_wrongCode cfg n2 { r with attempts := 1 } w2
      (by simpa using by omega) (by simpa using hu) (by simp [hmax]) (by simpa using hw2)
    rw [hmax, if_neg (by norm_num)] at hv
    simp [VerifyOTP, repoGetOTP, hv, repoUpdateOTP,
      show ¬ r.expiresAt - n2 ≤ 0 from by omega]
  · have hv := validate_wrongCode cfg n3 { r with attempts := 2 } w3
      (by simpa using by omega) (by simpa using hu) (by simp [hmax]) (by simpa using hw3)
    rw [hmax, if_pos (by norm_num)] at hv
    simp [VerifyOTP, repoGetOTP, hv]

/-- C5 witness: the concrete fresh record with three wrong codes. -/
theorem verifyOTP_exhaustion_purge_witness :
    VerifyOTP DefaultOTPConfig 1 (some recEx) none "000000" =
      ((false, some .invalidOTP), some { recEx with attempts := 1 }) ∧
    VerifyOTP DefaultOTPConfig 2 (some { recEx with attempts := 1 }) none "111111" =
      ((false, some .invalidOTP), some { recEx with attempts := 2 }) ∧
    VerifyOTP DefaultOTPConfig 3 (some { recEx with attempts := 2 }) none "222222" =
      ((false, some .tooManyAttempts), none) :=
  verifyOTP_exhaustion_purge DefaultOTPConfig recEx 1 2 3 "000000" "111111" "222222"
    (by decide) (by decide) (by decide) (by decide) (by decide) (by decide)
    (by decide) (by decide) (by decide)

/-! ## Claim C7 -/

/-- One `Validate` call either reaches the comparison and increments attempts
by exactly one, or short-circuits and returns the record untouched. -/
lemma validate_attempts_step (cfg : OTPConfig) (now : Int) (o : OTP) (code : String) :
    (reachesComparison cfg now o = true →
      (OTPService.Validate cfg now o code).2.attempts = o.attempts + 1) ∧
    (reachesComparison cfg now o = false →
      (OTPService.Validate cfg now o code).2 = o) := by
  constructor
  · intro h
    simp only [reachesComparison, Bool.and_eq_true, Bool.not_eq_true',
      decide_eq_true_eq, decide_eq_false_iff_not] at h
    obtain ⟨⟨hlive, hu⟩, hlt⟩ := h
    by_cases hc : o.code = code
    · rw [validate_rightCode cfg now o code hlive hu hlt hc]
    · rw [validate_wrongCode cfg now o code hlive hu hlt hc]
  · intro h
    by_cases hlive : o.expiresAt < now
    · rw [validate_expired cfg now o code hlive]
    · by_cases hu : o.used = true
      · rw [validate_used cfg now o code hlive hu]
      · have hu' : o.used = false := by simpa using hu
        by_cases hge : cfg.maxAttempts ≤ o.attempts
        · rw [validate_exhausted cfg now o code hlive hu' hge]
        · exfalso
          simp [reachesComparison, hlive, hu', not_le.mp hge] at h

/-- A deleted key is never resurrected by further `VerifyOTP` calls. -/
lemma verifyRun_none (cfg : OTPConfig) (calls : List (Int × String)) :
    VerifyOTPRun cfg none calls = none := by
  induction calls with
  | nil => rfl
  | cons c rest ih =>
    obtain ⟨now, code⟩ := c
    simpa [VerifyOTPRun, VerifyOTP, repoGetOTP] using ih

/-- One healthy-store `VerifyOTP` call either deletes the record or leaves a
record whose attempt counter has not decreased. -/
lemma verifyOTP_step_attempts (cfg : OTPConfig) (now : Int) (r : OTP) (code : String) :
    (VerifyOTP cfg now (some r) none code).2 = none ∨
    ∃ r2, (VerifyOTP cfg now (some r) none code).2 = some r2 ∧
      r.attempts ≤ r2.attempts := by
  by_cases hlive : r.expiresAt < now
  · left
    simp [VerifyOTP, repoGetOTP, validate_expired cfg now r code hlive]
  · by_cases hu : r.used = true
    · right
      exact ⟨r, by simp [VerifyOTP, repoGetOTP, validate_used cfg now r code hlive hu],
        le_refl _⟩
    · have hu' : r.used = false := by simpa using hu
      by_cases hge : cfg.maxAttempts ≤ r.attempts
      · left
        simp [VerifyOTP, repoGetOTP, validate_exhausted cfg now r code hlive hu' hge]
      · have hlt : r.attempts < cfg.maxAttempts := not_le.mp hge
        by_cases hc : r.code = code
        · left
          simp [VerifyOTP, repoGetOTP, validate_rightCode cfg now r code hlive hu' hlt hc]
        · have hv := validate_wrongCode cfg now r code hlive hu' hlt hc
          by_cases hcap : cfg.maxAttempts ≤ r.attempts + 1
          · left
            rw [if_pos hcap] at hv
            simp [VerifyOTP, repoGetOTP, hv]
          · right
            rw [if_neg hcap] at hv
            by_cases ht : r.expiresAt - now ≤ 0
            · exact ⟨r, by simp [VerifyOTP, repoGetOTP, hv, repoUpdateOTP, ht], le_refl _⟩
            · refine ⟨{ r with attempts := r.attempts + 1 },
                by simp [VerifyOTP, repoGetOTP, hv, repoUpdateOTP, ht], ?_⟩
              simp only [OTP.attempts]
              omega

/-- Along any sequence of healthy-store `VerifyOTP` calls, a surviving record's
attempt counter never decreases. -/
lemma verifyRun_attempts (cfg : OTPConfig) (calls : List (Int × String)) :
    ∀ r r' : OTP, VerifyOTPRun cfg (some r) calls = some r' →
      r.attempts ≤ r'.attempts := by
  induction calls with
  | nil =>
    intro r r' h
    cases h
    exact le_refl _
  | cons c rest ih =>
    intro r r' h
    obtain ⟨now, code⟩ := c
    rw [VerifyOTPRun] at h
    rcases verifyOTP_step_attempts cfg now r code with hnone | ⟨r2, hr2, hle⟩
    · rw [hnone, verifyRun_none] at h
      cases h
    · rw [hr2] at h
      exact le_trans hle (ih r2 r' h)

/-- C7: the attempts counter is monotone.  (a) Per call: a `Validate` call
that reaches the code comparison increments `attempts` by exactly one, a call
that short-circuits on expiry, used, or prior exhaustion returns the record
unchanged, and in all cases `attempts` does not decrease.  (b) Per sequence:
over any sequence of healthy-store `VerifyOTP` calls against one record (no
intervening Generate), a surviving record's `attempts` never decreases. -/
theorem verify_attempt_monotonicity (cfg : OTPConfig) :
    (∀ (now : Int) (o : OTP) (code : String),
      (reachesComparison cfg now o = true →
        (OTPService.Validate cfg now o code).2.attempts = o.attempts + 1) ∧
      (reachesComparison cfg now o = false →
        (OTPService.Validate cfg now o code).2 = o) ∧
      o.attempts ≤ (OTPService.Validate cfg now o code).2.attempts) ∧
    (∀ (calls : List (Int × String)) (r r' : OTP),
      VerifyOTPRun cfg (some r) calls = some r' → r.attempts ≤ r'.attempts) := by
  constructor
  · intro now o code
    refine ⟨(validate_attempts_step cfg now o code).1,
      (validate_attempts_step cfg now o code).2, ?_⟩
    cases hrc : reachesComparison cfg now o
    · rw [(validate_attempts_step cfg now o code).2 hrc]
    · rw [(validate_attempts_step cfg now o code).1 hrc]
      omega
  · exact fun calls r r' h => verifyRun_attempts cfg calls r r' h

/-- C7 witness: a wrong-code call on the concrete fresh record reaches the
comparison, increments attempts to 1, and the one-call sequence keeps the
counter monotone. -/
theorem verify_attempt_monotonicity_witness :
    reachesComparison DefaultOTPConfig 5 recEx = true ∧
    (OTPService.Validate DefaultOTPConfig 5 recEx "000000").2.attempts =
      recEx.attempts + 1 ∧
    VerifyOTPRun DefaultOTPConfig (some recEx) [(5, "000000")] =
      some { recEx with attempts := 1 } ∧
    recEx.attempts ≤ ({ recEx with attempts := 1 } : OTP).attempts := by
  refine ⟨by decide, ?_, by decide, ?_⟩
  · exact ((verify_attempt_monotonicity DefaultOTPConfig).1 5 recEx "000000").1 (by decide)
  · exact (verify_attempt_monotonicity DefaultOTPConfig).2 [(5, "000000")] recEx
      { recEx with attempts := 1 } (by decide)

/-! ## Claim C4 -/

/-- C4 (contradicted by the code): with failure threshold 5 and cool-down `T`,
starting Closed with a zero counter, four consecutive failing store calls
leave the breaker Closed and the fifth moves it to Open (counter 5, last
failure stamped), and while the cool-down has not elapsed every call is
short-circuited without consulting the network — those parts hold.  But once
the cool-down HAS elapsed, the next call is NOT let through as a probe: the
lock-upgrade branch of `isCircuitOpen` leaves the function's deferred
`RUnlock` unbalanced, so for every network outcome the call dies with Go's
unrecoverable fatal error "sync: RUnlock of unlocked RWMutex" before any
network attempt — no probe ever executes and no successful probe can return
the breaker to Closed. -/
theorem breaker_probe_fatal (T t0 t1 t2 t3 t4 t5 : Int) :
    (failCalls ⟨5, T⟩ ⟨.circClosed, 0, t0⟩ [t1, t2, t3, t4]).circuitState = .circClosed ∧
    failCalls ⟨5, T⟩ ⟨.circClosed, 0, t0⟩ [t1, t2, t3, t4, t5] = ⟨.circOpen, 5, t5⟩ ∧
    (∀ (t6 : Int) (netOk : Bool), t6 - t5 ≤ T →
      storeCall ⟨5, T⟩ ⟨.circOpen, 5, t5⟩ t6 netOk =
        (.shortCircuited, ⟨.circOpen, 6, t6⟩)) ∧
    (∀ (t7 : Int) (netOk : Bool), T < t7 - t5 →
      (storeCall ⟨5, T⟩ ⟨.circOpen, 5, t5⟩ t7 netOk).1 = .fatalRUnlock) := by
  refine ⟨?_, ?_, ?_, ?_⟩
  · simp [failCalls, storeCall, isCircuitOpen, handleCircuitBreaker]
  · simp [failCalls, storeCall, isCircuitOpen, handleCircuitBreaker]
  · intro t6 netOk h
    simp [storeCall, isCircuitOpen, handleCircuitBreaker,
      show ¬ T < t6 - t5 from by omega]
  · intro t7 netOk h
    simp [storeCall, isCircuitOpen, h]

/-- C4 witness: cool-down 30, failures at times 1..5, a short-circuited call
at 10 (within cool-down), and the first call after the cool-down elapsed, at
41, killed by the unbalanced deferred RUnlock for a healthy network. -/
theorem breaker_probe_fatal_witness :
    storeCall ⟨5, 30⟩ (failCalls ⟨5, 30⟩ ⟨.circClosed, 0, 0⟩ [1, 2, 3, 4, 5]) 10 true =
      (.shortCircuited, ⟨.circOpen, 6, 10⟩) ∧
    (storeCall ⟨5, 30⟩ (failCalls ⟨5, 30⟩ ⟨.circClosed, 0, 0⟩ [1, 2, 3, 4, 5]) 41 true).1 =
      .fatalRUnlock := by
  have h := breaker_probe_fatal 30 0 1 2 3 4 5
  constructor
  · rw [h.2.1]
    exact h.2.2.1 10 true (by omega)
  · rw [h.2.1]
    exact h.2.2.2 41 true (by omega)

/-! ## Claims C6 and C10: `GetOrSet` after a `Get` error -/

lemma strLength_data (s : String) : s.length = s.data.length := rfl

/-- The cached-error detection in `GetOrSet` compares `err.Error()` with
`fmt.Sprintf("cached error: %s", err.Error()[13:])`.  The format string
contributes 14 bytes before the slice that removed only 13, so the two sides
always differ in length: the comparison is never true, for any message. -/
lemma cachedError_detection_never (msg : String) :
    msg ≠ "cached error: " ++ msg.drop 13 := by
  intro heq
  have hd : (msg.drop 13).length = msg.length - 13 := by
    rw [String.drop_eq, String.length_mk, List.length_drop, strLength_data]
  have hc14 : ("cached error: ").length = 14 := by decide
  have h2 : ("cached error: " ++ msg.drop 13).length = 14 + (msg.length - 13) := by
    rw [String.length_append, hd, hc14]
  rw [← heq] at h2
  omega

/-- `Service.Get` on a negatively cached payload surfaces the prior error
message behind the `"cached error: "` prefix. -/
lemma serviceGet_negative (m : String) :
    serviceGet (Except.ok ("ERR:" ++ m)) = Except.error ("cached error: " ++ m) := by
  have hdata : "ERR:".data.length = 4 := by decide
  have h4 : "ERR:".length = 4 := by decide
  have htake : ("ERR:" ++ m).take 4 = "ERR:" := by
    rw [String.take_eq, String.data_append, ← hdata, List.take_left]
  have hdrop : ("ERR:" ++ m).drop 4 = m := by
    rw [String.drop_eq, String.data_append, ← hdata, List.drop_left]
  have hlen : 4 ≤ ("ERR:" ++ m).length := by
    rw [String.length_append, h4]
    omega
  simp only [serviceGet, cachedErrorPrefix, h4]
  rw [if_pos ⟨hlen, htake⟩, hdrop]

/-- C6 (contradicted by the code): for EVERY key holding a negatively cached
entry `"ERR:" ++ m`, `Get` does surface `"cached error: " ++ m`, but
`GetOrSet`'s detection comparison (which re-inserts the space after the colon)
never fires, so the fetch function IS invoked (flag `true`) and its result —
not the previously cached failure — is what the caller receives. -/
theorem getOrSet_negative_cache_fetches_anyway (m v e : String) :
    serviceGet (Except.ok ("ERR:" ++ m)) = Except.error ("cached error: " ++ m) ∧
    serviceGetOrSet (Except.ok ("ERR:" ++ m)) (Except.ok v) = (.value v, true) ∧
    serviceGetOrSet (Except.ok ("ERR:" ++ m)) (Except.error e) = (.errMsg e, true) := by
  have hlen : ("cached error: " ++ m).length = 14 + m.length := by
    have hc14 : ("cached error: ").length = 14 := by decide
    rw [String.length_append, hc14]
  have hnotshort : ¬ ("cached error: " ++ m).length < 13 := by omega
  refine ⟨serviceGet_negative m, ?_, ?_⟩
  · simp only [serviceGetOrSet, serviceGet_negative]
    rw [if_neg hnotshort, if_neg (cachedError_detection_never _)]
  · simp only [serviceGetOrSet, serviceGet_negative]
    rw [if_neg hnotshort, if_neg (cachedError_detection_never _)]

/-! ## Claim C10 -/

/-- C10: whenever the underlying `Get` fails with a message shorter than 13
bytes (the length of `"cached error:"`), the error passes through `Service.Get`
unchanged and `GetOrSet`'s slice `err.Error()[13:]` is out of bounds: the call
aborts with a runtime panic instead of returning an error or falling through
to the fetch path (the fetch flag stays `false`). -/
theorem getOrSet_short_error_panics (msg : String) (fetchResult : Except String String)
    (h : msg.length < 13) :
    serviceGet (Except.error msg) = Except.error msg ∧
    serviceGetOrSet (Except.error msg) fetchResult = (.panicked, false) := by
  refine ⟨rfl, ?_⟩
  simp only [serviceGetOrSet, serviceGet]
  rw [if_pos h]

/-- C10 witness: a 7-byte transport error message panics the call. -/
theorem getOrSet_short_error_panics_witness :
    ("timeout" : String).length < 13 ∧
    serviceGetOrSet (Except.error "timeout") (Except.ok "fresh") = (.panicked, false) :=
  ⟨by decide,
   (getOrSet_short_error_panics "timeout" (Except.ok "fresh") (by decide)).2⟩

/-! ## Claim C9 -/

/-- Go truncation toward zero stays within any symmetric bound containing the
argument. -/
lemma goTrunc_bounds (b x : ℚ) (hb : 0 ≤ b) (hlo : -b ≤ x) (hhi : x ≤ b) :
    -b ≤ (goTrunc x : ℚ) ∧ (goTrunc x : ℚ) ≤ b := by
  unfold goTrunc
  by_cases hx : 0 ≤ x
  · rw [if_pos hx]
    constructor
    · have h : (0:ℚ) ≤ ((⌊x⌋ : Int) : ℚ) := by exact_mod_cast Int.floor_nonneg.mpr hx
      linarith
    · have h := Int.floor_le x
      linarith
  · rw [if_neg hx]
    push_neg at hx
    constructor
    · have h := Int.le_ceil x
      linarith
    · have hc : (⌈x⌉ : Int) ≤ 0 := Int.ceil_le.mpr (by exact_mod_cast le_of_lt hx)
      have h : ((⌈x⌉ : Int) : ℚ) ≤ 0 := by exact_mod_cast hc
      linarith

/-- C9: with jitter percentage `0.1` and any random draw `0 ≤ r < 1`, `Set`'s
effective TTL stays within ±10% of a positive requested TTL (for the nominal
TTL 100 it lies in [90, 110]), and a non-positive requested TTL passes through
unchanged. -/
theorem set_ttl_jitter_bounds (d : Int) (r : ℚ) (h0 : 0 ≤ r) (h1 : r < 1) :
    (0 < d →
      (9 : ℚ) / 10 * d ≤ (addJitter d (1/10) r : ℚ) ∧
      (addJitter d (1/10) r : ℚ) ≤ (11 : ℚ) / 10 * d) ∧
    (d ≤ 0 → addJitter d (1/10) r = d) ∧
    (d = 100 → 90 ≤ addJitter d (1/10) r ∧ addJitter d (1/10) r ≤ 110) := by
  have key : 0 < d →
      (9:ℚ)/10 * d ≤ (addJitter d (1/10) r : ℚ) ∧
      (addJitter d (1/10) r : ℚ) ≤ (11:ℚ)/10 * d := by
    intro hd
    have hdq : (0:ℚ) < (d:ℚ) := by exact_mod_cast hd
    have hx1 : -((d:ℚ)/10) ≤ (d:ℚ) * (2 * (1/10) * r - 1/10) := by nlinarith
    have hx2 : (d:ℚ) * (2 * (1/10) * r - 1/10) ≤ (d:ℚ)/10 := by nlinarith
    have hb := goTrunc_bounds ((d:ℚ)/10) ((d:ℚ) * (2 * (1/10) * r - 1/10))
      (by positivity) hx1 hx2
    unfold addJitter
    rw [if_neg (by omega)]
    push_cast
    constructor
    · linarith [hb.1]
    · linarith [hb.2]
  refine ⟨key, ?_, ?_⟩
  · intro hd
    unfold addJitter
    rw [if_pos hd]
  · intro hd
    subst hd
    have h := key (by omega)
    have hl : (90:ℚ) ≤ ((addJitter 100 (1/10) r : Int) : ℚ) := by
      have := h.1
      push_cast at this ⊢
      linarith
    have hr : ((addJitter 100 (1/10) r : Int) : ℚ) ≤ (110:ℚ) := by
      have := h.2
      push_cast at this ⊢
      linarith
    constructor
    · exact_mod_cast hl
    · exact_mod_cast hr

/-- C9 witness: requested TTL 100 with the draw `r = 1/2` lands in
[90, 110]. -/
theorem set_ttl_jitter_bounds_witness :
    (0:ℚ) ≤ 1/2 ∧ (1/2 : ℚ) < 1 ∧
    90 ≤ addJitter 100 (1/10) (1/2) ∧ addJitter 100 (1/10) (1/2) ≤ 110 :=
  ⟨by norm_num, by norm_num,
   (set_ttl_jitter_bounds 100 (1/2) (by norm_num) (by norm_num)).2.2 rfl⟩

end Uptime

